import Mathlib

/-!
Verification of the terminal-control core of `socks.c` (a kilo-style editor
substrate): raw/cooked terminal mode toggling, the key-read loop, key
dispatch, the screen-refresh protocol, and window sizing.

The embedding is shallow: `struct termios` becomes `Termios` over `Nat` flag
words (tcflag_t is a 32-bit unsigned integer on Linux, so flag words live
below 2^32 and `&= ~mask` becomes `&&& (mask XOR (2^32 - 1))`), the byte
stream delivered by repeated `read(STDIN_FILENO, &c, 1)` calls becomes a
`List ReadResult`, and the bytes written to standard output become a
`List Nat`.  Flag constants carry the Linux (asm-generic) values used when
compiling `socks.c`.
-/

namespace Socks

/-- Input-flag constant (Linux asm-generic termbits.h): break condition sends SIGINT. -/
def BRKINT : Nat := 0x0002

/-- Input-flag constant: parity checking. -/
def INPCK : Nat := 0x0010

/-- Input-flag constant: strip the eighth bit of each input byte. -/
def ISTRIP : Nat := 0x0020

/-- Input-flag constant: translate carriage return to newline on input. -/
def ICRNL : Nat := 0x0100

/-- Input-flag constant: XON/XOFF (Ctrl-S / Ctrl-Q) flow control. -/
def IXON : Nat := 0x0400

/-- Output-flag constant: output post-processing. -/
def OPOST : Nat := 0x0001

/-- Control-flag constant: character size 8 bits (both bits of the CSIZE field). -/
def CS8 : Nat := 0x0030

/-- Local-flag constant: deliver signals on INTR/QUIT/SUSP keys. -/
def ISIG : Nat := 0x0001

/-- Local-flag constant: canonical (line-buffered) input. -/
def ICANON : Nat := 0x0002

/-- Local-flag constant: echo input characters. -/
def ECHO : Nat := 0x0008

/-- Local-flag constant: extended input processing (Ctrl-V). -/
def IEXTEN : Nat := 0x8000

/-- Index of the inter-byte timer in `c_cc` (Linux: 5); unit is 1/10 second. -/
def VTIME : Nat := 5

/-- Index of the minimum-bytes-to-return entry in `c_cc` (Linux: 6). -/
def VMIN : Nat := 6

/-- errno value for "resource temporarily unavailable" (Linux: 11). -/
def EAGAIN : Nat := 11

/-- `struct termios`: the four flag words (each a 32-bit `tcflag_t`, modelled
as a `Nat` below `2^32`) and the control-character array `c_cc`. -/
structure Termios where
  c_iflag : Nat
  c_oflag : Nat
  c_cflag : Nat
  c_lflag : Nat
  c_cc : Nat → Nat

/-- All ones in 32 bits; `~mask` on a `tcflag_t` is `MASK32 ^^^ mask`. -/
def MASK32 : Nat := 4294967295

/-- Bitwise complement within the 32-bit width of `tcflag_t`. -/
def not32 (m : Nat) : Nat := MASK32 ^^^ m

/-- The mask cleared from `c_iflag` by `enableRawMode` (socks.c line 77). -/
def inputClearMask : Nat := BRKINT ||| ICRNL ||| INPCK ||| ISTRIP ||| IXON

/-- The mask cleared from `c_lflag` by `enableRawMode` (socks.c line 91). -/
def localClearMask : Nat := ECHO ||| ICANON ||| ISIG ||| IEXTEN

/-- The raw-mode configuration derived from a captured `termios`, exactly the
body of `enableRawMode` (socks.c lines 57-99): start from a copy of
`E.original_termios`, OR `CS8` into `c_cflag`, clear
`BRKINT | ICRNL | INPCK | ISTRIP | IXON` from `c_iflag`, clear `OPOST` from
`c_oflag`, clear `ECHO | ICANON | ISIG | IEXTEN` from `c_lflag`, and set
`c_cc[VMIN] = 1`, `c_cc[VTIME] = 1`. -/
def rawFrom (t : Termios) : Termios :=
  { c_cflag := t.c_cflag ||| CS8
    c_iflag := t.c_iflag &&& not32 inputClearMask
    c_oflag := t.c_oflag &&& not32 OPOST
    c_lflag := t.c_lflag &&& not32 localClearMask
    c_cc := Function.update (Function.update t.c_cc VMIN 1) VTIME 1 }

/-- The terminal-mode state machine: the device's live configuration
(`terminal`, what `tcsetattr` writes) and the program's saved copy
(`saved`, the global `E.original_termios`). -/
structure TermState where
  terminal : Termios
  saved : Termios

/-- The `tcgetattr(STDIN_FILENO, &E.original_termios)` in `init`
(socks.c line 207), on its success path: copy the device configuration
into the saved slot. -/
def captureOriginal (s : TermState) : TermState :=
  { s with saved := s.terminal }

/-- `enableRawMode` (socks.c lines 57-104), on its success path: derive the
raw configuration from the saved copy (a local `struct termios raw`, so the
saved copy itself is untouched) and apply it with `tcsetattr`. -/
def enableRawMode (s : TermState) : TermState :=
  { s with terminal := rawFrom s.saved }

/-- `disableRawMode` (socks.c lines 42-46), on its success path: reapply the
saved `E.original_termios` verbatim with `tcsetattr`. -/
def disableRawMode (s : TermState) : TermState :=
  { s with terminal := s.saved }

theorem enableRawMode_saved (s : TermState) (n : Nat) :
    (enableRawMode^[n] s).saved = s.saved := by
  induction n with
  | zero => rfl
  | succ n ih => rw [Function.iterate_succ_apply']; exact ih

/-- Claim C1: after capturing the original configuration, any number of
`enableRawMode` calls followed by exactly one `disableRawMode` leaves the
terminal configuration equal, bit for bit, to the configuration that was
captured — the device state present before any raw-mode entry. -/
theorem restore_after_raw_entries (s : TermState) (n : Nat) :
    (disableRawMode (enableRawMode^[n] (captureOriginal s))).terminal = s.terminal := by
  show (enableRawMode^[n] (captureOriginal s)).saved = s.terminal
  rw [enableRawMode_saved, captureOriginal]

theorem testBit_not32 (m i : Nat) (hm : m < 2 ^ 32) :
    (not32 m).testBit i = (decide (i < 32) && !(m.testBit i)) := by
  rw [not32, show MASK32 = 2 ^ 32 - 1 by norm_num [MASK32], Nat.testBit_xor,
    Nat.testBit_two_pow_sub_one]
  by_cases h : i < 32
  · simp [h]
  · have h32 : 2 ^ 32 ≤ 2 ^ i := Nat.pow_le_pow_right (by norm_num) (Nat.le_of_not_lt h)
    rw [Nat.testBit_lt_two_pow (Nat.lt_of_lt_of_le hm h32)]
    simp [h]

theorem land_not32_cleared (a m i : Nat) (hm : m < 2 ^ 32) (hb : m.testBit i = true) :
    (a &&& not32 m).testBit i = false := by
  rw [Nat.testBit_land, testBit_not32 m i hm, hb]
  simp

theorem land_not32_preserved (a m i : Nat) (ha : a < 2 ^ 32) (hm : m < 2 ^ 32)
    (hb : m.testBit i = false) :
    (a &&& not32 m).testBit i = a.testBit i := by
  rw [Nat.testBit_land, testBit_not32 m i hm, hb]
  by_cases h : i < 32
  · simp [h]
  · have h32 : 2 ^ 32 ≤ 2 ^ i := Nat.pow_le_pow_right (by norm_num) (Nat.le_of_not_lt h)
    rw [Nat.testBit_lt_two_pow (Nat.lt_of_lt_of_le ha h32)]
    simp

/-- Claim C3: `enableRawMode` derives the applied configuration bitwise from
the captured original: in `c_iflag` exactly the `BRKINT`, `ICRNL`, `INPCK`,
`ISTRIP`, `IXON` bits are cleared; in `c_oflag` exactly `OPOST`; in `c_lflag`
exactly `ECHO`, `ICANON`, `ISIG`, `IEXTEN`; in `c_cflag` the `CS8` character-size
bits are forced on and every other bit kept; `c_cc[VMIN]` is 1 and
`c_cc[VTIME]` is 1 (one tenth of a second, i.e. about 100 ms); and every bit or
control-character entry not named by one of those toggles is preserved
unchanged from the original. -/
theorem raw_mode_derivation (t : Termios)
    (hi : t.c_iflag < 2 ^ 32) (ho : t.c_oflag < 2 ^ 32) (hl : t.c_lflag < 2 ^ 32) :
    (∀ i, inputClearMask.testBit i = true → ((rawFrom t).c_iflag).testBit i = false) ∧
    (∀ i, inputClearMask.testBit i = false →
      ((rawFrom t).c_iflag).testBit i = (t.c_iflag).testBit i) ∧
    (∀ i, OPOST.testBit i = true → ((rawFrom t).c_oflag).testBit i = false) ∧
    (∀ i, OPOST.testBit i = false →
      ((rawFrom t).c_oflag).testBit i = (t.c_oflag).testBit i) ∧
    (∀ i, localClearMask.testBit i = true → ((rawFrom t).c_lflag).testBit i = false) ∧
    (∀ i, localClearMask.testBit i = false →
      ((rawFrom t).c_lflag).testBit i = (t.c_lflag).testBit i) ∧
    (∀ i, CS8.testBit i = true → ((rawFrom t).c_cflag).testBit i = true) ∧
    (∀ i, CS8.testBit i = false →
      ((rawFrom t).c_cflag).testBit i = (t.c_cflag).testBit i) ∧
    (rawFrom t).c_cc VMIN = 1 ∧
    (rawFrom t).c_cc VTIME = 1 ∧
    (∀ j, j ≠ VMIN → j ≠ VTIME → (rawFrom t).c_cc j = t.c_cc j) := by
  refine ⟨?_, ?_, ?_, ?_, ?_, ?_, ?_, ?_, ?_, ?_, ?_⟩
  · exact fun i hb => land_not32_cleared _ _ i (by decide) hb
  · exact fun i hb => land_not32_preserved _ _ i hi (by decide) hb
  · exact fun i hb => land_not32_cleared _ _ i (by decide) hb
  · exact fun i hb => land_not32_preserved _ _ i ho (by decide) hb
  · exact fun i hb => land_not32_cleared _ _ i (by decide) hb
  · exact fun i hb => land_not32_preserved _ _ i hl (by decide) hb
  · intro i hb
    rw [show ((rawFrom t).c_cflag) = t.c_cflag ||| CS8 from rfl, Nat.testBit_lor, hb]
    simp
  · intro i hb
    rw [show ((rawFrom t).c_cflag) = t.c_cflag ||| CS8 from rfl, Nat.testBit_lor, hb]
    simp
  · rw [show (rawFrom t).c_cc = Function.update (Function.update t.c_cc VMIN 1) VTIME 1
      from rfl]
    rw [Function.update_noteq (by decide), Function.update_same]
  · rw [show (rawFrom t).c_cc = Function.update (Function.update t.c_cc VMIN 1) VTIME 1
      from rfl]
    rw [Function.update_same]
  · intro j hmin htime
    rw [show (rawFrom t).c_cc = Function.update (Function.update t.c_cc VMIN 1) VTIME 1
      from rfl]
    rw [Function.update_noteq htime, Function.update_noteq hmin]

/-- A sample configuration used to instantiate hypothesis-bearing theorems. -/
def sampleTermios : Termios :=
  { c_iflag := 0x0502
    c_oflag := 0x0005
    c_cflag := 0x00bf
    c_lflag := 0x8a3b
    c_cc := fun _ => 0 }

theorem raw_mode_derivation_witness :
    (rawFrom sampleTermios).c_cc VMIN = 1 ∧
    ((rawFrom sampleTermios).c_iflag).testBit 10 = false ∧
    ((rawFrom sampleTermios).c_cflag).testBit 7 = (sampleTermios.c_cflag).testBit 7 :=
  ⟨(raw_mode_derivation sampleTermios (by decide) (by decide) (by decide)).2.2.2.2.2.2.2.2.1,
   (raw_mode_derivation sampleTermios (by decide) (by decide) (by decide)).1 10 (by decide),
   (raw_mode_derivation sampleTermios (by decide) (by decide) (by decide)).2.2.2.2.2.2.2.1 7
     (by decide)⟩

/-- The `CTRL_KEY(k)` macro (socks.c line 15): AND the key value with 0x1f,
clearing bits 5-7. -/
def CTRL_KEY (k : Nat) : Nat := k &&& 0x1f

/-- Bytes of the erase-entire-display sequence `"\x1b[2J"` (ESC [ 2 J). -/
def eraseDisplaySeq : List Nat := [0x1b, 0x5b, 0x32, 0x4a]

/-- Bytes of the cursor-home sequence `"\x1b[H"` (ESC [ H). -/
def cursorHomeSeq : List Nat := [0x1b, 0x5b, 0x48]

/-- Bytes of one row-fill marker `"~\r\n"` (tilde, carriage return, newline). -/
def rowFillSeq : List Nat := [0x7e, 0x0d, 0x0a]

/-- What a dispatch step does after its writes: fall through and continue the
loop, or call `exit` with the given status. -/
inductive StepAction where
  | cont
  | exitWith (status : Nat)
deriving DecidableEq

/-- `editorProcessKey` (socks.c lines 188-199) after the key has been read:
`switch (c) { case CTRL_KEY('q'): ... }` — the mask is applied to the letter
`'q'` (0x71) in the case label, and the raw input byte is compared against the
result.  On a match it writes the erase-display and cursor-home sequences and
calls `exit(0)`; on any other byte it does nothing.  The argument is the byte
delivered by `editorReadKey` (0-255). -/
def editorProcessKey (c : Nat) : List Nat × StepAction :=
  if c = CTRL_KEY 0x71 then
    (eraseDisplaySeq ++ cursorHomeSeq, StepAction.exitWith 0)
  else
    ([], StepAction.cont)

/-- `editorDrawRows` (socks.c lines 154-159): `E.screenRows` is first narrowed
to `unsigned short` (reduction mod 2^16), then one row-fill marker is written
per row. -/
def editorDrawRows (screenRows : Nat) : List Nat :=
  List.flatten (List.replicate (screenRows % 65536) rowFillSeq)

/-- `editorRefreshScreen` (socks.c lines 171-180): erase display, home the
cursor, draw the tilde rows, home the cursor again. -/
def editorRefreshScreen (screenRows : Nat) : List Nat :=
  eraseDisplaySeq ++ cursorHomeSeq ++ editorDrawRows screenRows ++ cursorHomeSeq

/-- Outcome of one `read(STDIN_FILENO, &c, 1)` call: one byte arrived
(`read` returned 1), the VTIME timer expired with no data (`read` returned 0),
or `read` failed returning -1 with the given errno. -/
inductive ReadResult where
  | bytes (c : Nat)
  | timedOut
  | err (e : Nat)
deriving DecidableEq

/-- Result of `editorReadKey` on a modelled stream of `read` outcomes: a byte
together with the unconsumed rest of the stream, a fatal `die` with its
diagnostic, or `starved` when the modelled stream runs out while the loop is
still waiting (the real loop would keep blocking). -/
inductive ReadOutcome where
  | key (c : Nat) (rest : List ReadResult)
  | fatal (msg : String)
  | starved
deriving DecidableEq

/-- `editorReadKey` (socks.c lines 110-127): loop `while read != 1`; inside
the loop, `die("editorReadKey - read()")` exactly when `read` returned -1 with
errno other than `EAGAIN`; a zero-byte timeout or an `EAGAIN` failure just
retries. -/
def editorReadKey : List ReadResult → ReadOutcome
  | [] => ReadOutcome.starved
  | ReadResult.bytes c :: rest => ReadOutcome.key c rest
  | ReadResult.timedOut :: rest => editorReadKey rest
  | ReadResult.err e :: rest =>
    if e = EAGAIN then editorReadKey rest
    else ReadOutcome.fatal "editorReadKey - read()"

/-- Claim C6: a zero-byte timeout or an `EAGAIN` failure is transparent to the
caller (the loop retries, returning nothing and raising nothing); a returned
byte was actually delivered by some `read`; a fatal failure only ever arises
from a `read` error with errno other than `EAGAIN`, and such an error at the
front of the stream is fatal at once. -/
theorem read_retry_discipline (rs : List ReadResult) :
    (∀ rest, editorReadKey (ReadResult.timedOut :: rest) = editorReadKey rest) ∧
    (∀ rest, editorReadKey (ReadResult.err EAGAIN :: rest) = editorReadKey rest) ∧
    (∀ c rest, editorReadKey rs = ReadOutcome.key c rest → ReadResult.bytes c ∈ rs) ∧
    (∀ m, editorReadKey rs = ReadOutcome.fatal m →
      ∃ e, e ≠ EAGAIN ∧ ReadResult.err e ∈ rs) ∧
    (∀ e rest, e ≠ EAGAIN →
      editorReadKey (ReadResult.err e :: rest) = ReadOutcome.fatal "editorReadKey - read()") := by
  refine ⟨fun rest => rfl, fun rest => by simp [editorReadKey], ?_, ?_, ?_⟩
  · intro c rest h
    induction rs with
    | nil => simp [editorReadKey] at h
    | cons r tl ih =>
      cases r with
      | bytes b => simp [editorReadKey] at h; simp [h.1]
      | timedOut => exact List.mem_cons_of_mem _ (ih h)
      | err e =>
        by_cases he : e = EAGAIN
        · simp [editorReadKey, he] at h
          exact List.mem_cons_of_mem _ (ih (by simp [editorReadKey, h]))
        · simp [editorReadKey, he] at h
  · intro m h
    induction rs with
    | nil => simp [editorReadKey] at h
    | cons r tl ih =>
      cases r with
      | bytes b => simp [editorReadKey] at h
      | timedOut =>
        obtain ⟨e, he, hmem⟩ := ih h
        exact ⟨e, he, List.mem_cons_of_mem _ hmem⟩
      | err e =>
        by_cases he : e = EAGAIN
        · simp [editorReadKey, he] at h
          obtain ⟨f, hf, hmem⟩ := ih h
          exact ⟨f, hf, List.mem_cons_of_mem _ hmem⟩
        · exact ⟨e, he, List.mem_cons_self _ _⟩
  · intro e rest he
    simp [editorReadKey, he]

theorem read_retry_discipline_witness :
    ReadResult.bytes 0x61 ∈
      [ReadResult.timedOut, ReadResult.err EAGAIN, ReadResult.bytes 0x61] ∧
    editorReadKey [ReadResult.err 5] = ReadOutcome.fatal "editorReadKey - read()" :=
  ⟨(read_retry_discipline
      [ReadResult.timedOut, ReadResult.err EAGAIN, ReadResult.bytes 0x61]).2.2.1 0x61 []
      (by decide),
   (read_retry_discipline []).2.2.2.2 5 [] (by decide)⟩

theorem count_tilde_flatten (n : Nat) :
    (List.flatten (List.replicate n rowFillSeq)).count 0x7e = n := by
  induction n with
  | zero => rfl
  | succ n ih =>
    rw [List.replicate_succ, List.flatten_cons, List.count_append, ih]
    have h1 : List.count 126 rowFillSeq = 1 := by decide
    omega

/-- Claim C7: `editorRefreshScreen` with screen row count `N` (all values the
program can store come from a 16-bit `ws_row`, hence the bound) emits exactly
one erase-display sequence, one cursor-home sequence, `N` row-fill markers and
one trailing cursor-home sequence, in that fixed order; in particular the
output contains exactly `N` tilde bytes.  The output is a pure function of the
row count, independent of any prior terminal content. -/
theorem render_determinism (n : Nat) (h : n < 65536) :
    editorRefreshScreen n =
      eraseDisplaySeq ++ cursorHomeSeq ++
        List.flatten (List.replicate n rowFillSeq) ++ cursorHomeSeq ∧
    (editorRefreshScreen n).count 0x7e = n := by
  have hm : n % 65536 = n := Nat.mod_eq_of_lt h
  constructor
  · rw [editorRefreshScreen, editorDrawRows, hm]
  · rw [editorRefreshScreen, editorDrawRows, hm, List.count_append, List.count_append,
      List.count_append, count_tilde_flatten]
    simp [eraseDisplaySeq, cursorHomeSeq]

theorem render_determinism_witness :
    editorRefreshScreen 2 =
      eraseDisplaySeq ++ cursorHomeSeq ++
        List.flatten (List.replicate 2 rowFillSeq) ++ cursorHomeSeq ∧
    (editorRefreshScreen 2).count 0x7e = 2 :=
  render_determinism 2 (by decide)

/-- How a modelled execution of `main`'s loop ends: `exit(n)` was called, the
modelled input stream ran out while blocked in `read` (`starved`), or the
modelled iteration budget ran out while the real loop would keep cycling
(`outOfFuel`). -/
inductive ProgramExit where
  | code (n : Nat)
  | starved
  | outOfFuel
deriving DecidableEq

/-- The loop body of `main` (socks.c lines 226-230): repeatedly
`editorRefreshScreen()` then `editorProcessKey()`.  `fuel` bounds the number
of modelled iterations; the result is the bytes written to standard output,
the diagnostics written to the error stream, and how the execution ended.
A fatal read error goes through `die`, which writes the erase-display and
cursor-home sequences, prints the diagnostic and exits with status 1. -/
def run : Nat → Nat → List ReadResult → List Nat × List String × ProgramExit
  | 0, _, _ => ([], [], ProgramExit.outOfFuel)
  | fuel + 1, rows, inp =>
    match editorReadKey inp with
    | ReadOutcome.starved => (editorRefreshScreen rows, [], ProgramExit.starved)
    | ReadOutcome.fatal msg =>
      (editorRefreshScreen rows ++ (eraseDisplaySeq ++ cursorHomeSeq), [msg],
        ProgramExit.code 1)
    | ReadOutcome.key c rest =>
      match editorProcessKey c with
      | (out, StepAction.exitWith s) =>
        (editorRefreshScreen rows ++ out, [], ProgramExit.code s)
      | (out, StepAction.cont) =>
        let next := run fuel rows rest
        (editorRefreshScreen rows ++ out ++ next.1, next.2.1, next.2.2)

/-- Claim C4: on byte 0x11 (Ctrl-Q) `editorProcessKey` writes the
erase-display then cursor-home sequences and exits with status 0 — so a loop
iteration that reads 0x11 ends the program with exit code 0 — while on any
other byte it writes nothing and the loop continues. -/
theorem quit_dispatch (fuel rows c : Nat) (rest : List ReadResult) :
    editorProcessKey 0x11 = (eraseDisplaySeq ++ cursorHomeSeq, StepAction.exitWith 0) ∧
    (c ≠ 0x11 → editorProcessKey c = ([], StepAction.cont)) ∧
    run (fuel + 1) rows (ReadResult.bytes 0x11 :: rest) =
      (editorRefreshScreen rows ++ (eraseDisplaySeq ++ cursorHomeSeq), [],
        ProgramExit.code 0) := by
  have hq : CTRL_KEY 0x71 = 0x11 := by decide
  refine ⟨by simp [editorProcessKey, hq], ?_, ?_⟩
  · intro h
    simp [editorProcessKey, hq, h]
  · show (match editorProcessKey 0x11 with
      | (out, StepAction.exitWith s) =>
        (editorRefreshScreen rows ++ out, ([] : List String), ProgramExit.code s)
      | (out, StepAction.cont) =>
        let next := run fuel rows rest
        (editorRefreshScreen rows ++ out ++ next.1, next.2.1, next.2.2)) = _
    simp [editorProcessKey, hq]

theorem quit_dispatch_witness :
    editorProcessKey 0x11 = (eraseDisplaySeq ++ cursorHomeSeq, StepAction.exitWith 0) ∧
    editorProcessKey 0x61 = ([], StepAction.cont) :=
  ⟨(quit_dispatch 0 0 0x61 []).1, (quit_dispatch 0 0 0x61 []).2.1 (by decide)⟩

/-- Claim C5 counterexample: byte 0x51 (the letter Q) satisfies
`(0x51 & 0x1F) = 0x11`, yet `editorProcessKey` writes nothing and continues on
it — the quit test does not mask the input byte. -/
theorem masked_input_cex :
    CTRL_KEY 0x51 = 0x11 ∧ editorProcessKey 0x51 = ([], StepAction.cont) := by
  decide

/-- Claim C5 (amended): the 0x1F mask is applied to the designated quit letter
`'q'` (0x71) in the case label, yielding 0x11, and the raw input byte is
compared unmasked against that value: `editorProcessKey` quits (clearing the
screen and exiting with status 0) exactly on the byte 0x11 itself. -/
theorem quit_comparison_unmasked (b : Nat) :
    CTRL_KEY 0x71 = 0x11 ∧
    ((editorProcessKey b).2 = StepAction.exitWith 0 ↔ b = 0x11) := by
  have hq : CTRL_KEY 0x71 = 0x11 := by decide
  refine ⟨hq, ?_⟩
  by_cases h : b = 0x11
  · simp [editorProcessKey, hq, h]
  · simp [editorProcessKey, hq, h]

theorem quit_comparison_unmasked_witness :
    (editorProcessKey 0x11).2 = StepAction.exitWith 0 :=
  (quit_comparison_unmasked 0x11).2.mpr rfl

/-- The `struct winsize` fields filled by a successful
`ioctl(STDOUT_FILENO, TIOCGWINSZ, &ws)`; both are 16-bit unsigned. -/
structure Winsize where
  ws_row : Nat
  ws_col : Nat
deriving DecidableEq

/-- `getWindowSize` (socks.c lines 132-143).  `ioctlRes` is the outcome of the
`ioctl` call (`none` when it returns -1); `rows` and `columns` are the prior
contents of the caller's `*rows` and `*columns`.  The result is the function's
return value together with the contents of those two locations afterwards. -/
def getWindowSize (ioctlRes : Option Winsize) (rows columns : Nat) : Int × Nat × Nat :=
  match ioctlRes with
  | none => (-1, rows, columns)
  | some ws =>
    if ws.ws_col = 0 then (-1, rows, columns)
    else (0, ws.ws_row, ws.ws_col)

/-- Outcome of `init` (socks.c lines 205-219): the editor state
(`E.screenRows`, `E.screenColumns`) when every checked call succeeds, or a
`die` with its diagnostic. -/
inductive InitResult where
  | ok (rows columns : Nat)
  | fatal (msg : String)
deriving DecidableEq

/-- Modelled outcomes of the system calls a whole execution performs. -/
structure Env where
  /-- Whether the `tcgetattr` in `init` (socks.c line 207) succeeds.  Its
  return value is not checked by the code, so nothing downstream consults
  this field. -/
  tcgetattrOk : Bool
  /-- Whether the `tcsetattr` in `enableRawMode` (socks.c line 101) succeeds. -/
  tcsetattrRawOk : Bool
  /-- Outcome of the `ioctl` window-size query (`none` = failure). -/
  winsize : Option Winsize
  /-- Stream of `read` outcomes consumed by the loop. -/
  input : List ReadResult

/-- `init` (socks.c lines 205-219): `tcgetattr` into `E.original_termios`
with the return value unchecked, `atexit(disableRawMode)`, `enableRawMode`
(which dies with "enableRawMode - tcsetattr" if its `tcsetattr` fails), then
`getWindowSize(&E.screenRows, &E.screenColumns)` (both still 0, the value of
the zero-initialized global), dying with "init - getWindowSize" on -1. -/
def init (env : Env) : InitResult :=
  if env.tcsetattrRawOk then
    match getWindowSize env.winsize 0 0 with
    | (ret, rows, columns) =>
      if ret = -1 then InitResult.fatal "init - getWindowSize"
      else InitResult.ok rows columns
  else InitResult.fatal "enableRawMode - tcsetattr"

/-- `main` (socks.c lines 223-233): `init()` then the refresh/process loop.
A `die` during `init` writes the erase-display and cursor-home sequences to
standard output, the diagnostic to the error stream, and exits with status 1
before the loop body ever runs. -/
def main (fuel : Nat) (env : Env) : List Nat × List String × ProgramExit :=
  match init env with
  | InitResult.fatal msg =>
    (eraseDisplaySeq ++ cursorHomeSeq, [msg], ProgramExit.code 1)
  | InitResult.ok rows _ => run fuel rows env.input

theorem getWindowSize_ret_neg (w : Option Winsize)
    (hw : w = none ∨ ∃ ws, w = some ws ∧ ws.ws_col = 0) (r c : Nat) :
    (getWindowSize w r c).1 = -1 := by
  rcases hw with h | ⟨ws, h, hcol⟩
  · rw [h]; rfl
  · rw [h]; simp [getWindowSize, hcol]

theorem init_fatal_of_badWindow (env : Env)
    (hw : env.winsize = none ∨ ∃ ws, env.winsize = some ws ∧ ws.ws_col = 0)
    (hs : env.tcsetattrRawOk = true) :
    init env = InitResult.fatal "init - getWindowSize" := by
  have hret := getWindowSize_ret_neg env.winsize hw 0 0
  rw [init, if_pos hs]
  rcases hgw : getWindowSize env.winsize 0 0 with ⟨ret, rows, columns⟩
  have : ret = -1 := by rw [hgw] at hret; exact hret
  simp [this]

/-- Claim C8: when the `ioctl` fails or reports zero columns,
`getWindowSize` returns -1 rather than dimensions, `init` dies with the
"init - getWindowSize" diagnostic, and `main` exits with status 1 having
emitted only `die`'s screen-clear writes — the same result for every fuel
budget and every input stream, so the refresh/process loop is never
entered. -/
theorem fatal_window_size (fuel : Nat) (env : Env)
    (hw : env.winsize = none ∨ ∃ ws, env.winsize = some ws ∧ ws.ws_col = 0)
    (hs : env.tcsetattrRawOk = true) :
    (getWindowSize env.winsize 0 0).1 = -1 ∧
    init env = InitResult.fatal "init - getWindowSize" ∧
    main fuel env =
      (eraseDisplaySeq ++ cursorHomeSeq, ["init - getWindowSize"], ProgramExit.code 1) := by
  have hinit := init_fatal_of_badWindow env hw hs
  exact ⟨getWindowSize_ret_neg env.winsize hw 0 0, hinit, by rw [main, hinit]⟩

theorem fatal_window_size_witness :
    main 5 { tcgetattrOk := true, tcsetattrRawOk := true,
             winsize := some { ws_row := 24, ws_col := 0 },
             input := [ReadResult.bytes 0x61] } =
      (eraseDisplaySeq ++ cursorHomeSeq, ["init - getWindowSize"], ProgramExit.code 1) :=
  (fatal_window_size 5 _ (Or.inr ⟨{ ws_row := 24, ws_col := 0 }, rfl, rfl⟩) rfl).2.2

/-- Claim C10: whenever `getWindowSize` returns -1 (`ioctl` failure or a
zero-column report, and only then), it leaves both output locations holding
their prior contents; on success it returns 0 and writes the reported
dimensions.  Consequently `init` produces editor dimensions only when the
size query succeeds — on every failing query it dies instead of returning a
state. -/
theorem window_outputs_untouched (ioctlRes : Option Winsize) (r c : Nat) :
    ((getWindowSize ioctlRes r c).1 = -1 →
      (getWindowSize ioctlRes r c).2.1 = r ∧ (getWindowSize ioctlRes r c).2.2 = c) ∧
    ((getWindowSize ioctlRes r c).1 = -1 ↔
      ioctlRes = none ∨ ∃ ws, ioctlRes = some ws ∧ ws.ws_col = 0) ∧
    (∀ ws, ioctlRes = some ws → ws.ws_col ≠ 0 →
      getWindowSize ioctlRes r c = (0, ws.ws_row, ws.ws_col)) ∧
    (∀ env : Env, (env.winsize = none ∨ ∃ ws, env.winsize = some ws ∧ ws.ws_col = 0) →
      ∀ rows columns, init env ≠ InitResult.ok rows columns) := by
  refine ⟨?_, ?_, ?_, ?_⟩
  · intro h
    rcases ioctlRes with _ | ws
    · exact ⟨rfl, rfl⟩
    · by_cases hcol : ws.ws_col = 0
      · simp [getWindowSize, hcol]
      · simp [getWindowSize, hcol] at h
  · constructor
    · intro h
      rcases ioctlRes with _ | ws
      · exact Or.inl rfl
      · by_cases hcol : ws.ws_col = 0
        · exact Or.inr ⟨ws, rfl, hcol⟩
        · simp [getWindowSize, hcol] at h
    · intro h
      rcases h with h | ⟨ws, h, hcol⟩
      · rw [h]; rfl
      · rw [h]; simp [getWindowSize, hcol]
  · intro ws h hcol
    rw [h]; simp [getWindowSize, hcol]
  · intro env hw rows columns
    by_cases hs : env.tcsetattrRawOk = true
    · rw [init_fatal_of_badWindow env hw hs]
      intro h
      exact InitResult.noConfusion h
    · rw [init, if_neg hs]
      intro h
      exact InitResult.noConfusion h

theorem window_outputs_untouched_witness :
    (getWindowSize (some { ws_row := 24, ws_col := 0 }) 7 9).2.1 = 7 ∧
    (getWindowSize (some { ws_row := 24, ws_col := 0 }) 7 9).2.2 = 9 ∧
    getWindowSize (some { ws_row := 24, ws_col := 80 }) 7 9 = (0, 24, 80) :=
  ⟨((window_outputs_untouched (some { ws_row := 24, ws_col := 0 }) 7 9).1 (by decide)).1,
   ((window_outputs_untouched (some { ws_row := 24, ws_col := 0 }) 7 9).1 (by decide)).2,
   (window_outputs_untouched (some { ws_row := 24, ws_col := 80 }) 7 9).2.2.1
     { ws_row := 24, ws_col := 80 } rfl (by decide)⟩

/-- Claim C2 (code defect): the `tcgetattr` in `init` (socks.c line 207) has
its return value discarded — `init` behaves identically whether the attribute
read succeeds or fails, and with the remaining calls succeeding a failed
attribute read still yields a normally initialized editor rather than the
fatal diagnostic-and-exit the specification requires. -/
theorem tcgetattr_unchecked (env : Env) :
    init { env with tcgetattrOk := false } = init { env with tcgetattrOk := true } ∧
    init { tcgetattrOk := false, tcsetattrRawOk := true,
           winsize := some { ws_row := 24, ws_col := 80 }, input := [] } =
      InitResult.ok 24 80 := by
  exact ⟨rfl, by decide⟩

/-- `die(s)` (socks.c lines 32-39): write the erase-display and cursor-home
sequences to standard output, `perror(s)` to the error stream, `exit(1)`. -/
def die (s : String) : List Nat × List String × Nat :=
  (eraseDisplaySeq ++ cursorHomeSeq, [s], 1)

/-- The `atexit`-registered `disableRawMode` (socks.c lines 42-46) as the
exit-time handler: `none` when its `tcsetattr` succeeds (the handler just
returns), otherwise the writes and replacement status of
`die("disableRawMode - tcsetattr")`. -/
def disableRawModeHandler (restoreOk : Bool) : Option (List Nat × List String × Nat) :=
  if restoreOk then none else some (die "disableRawMode - tcsetattr")

/-- Process termination through `exit(requested)`: the registered
`disableRawMode` handler runs; if its `tcsetattr` fails it calls `die`, whose
nested `exit(1)` terminates the process with status 1 in place of the
requested status (glibc runs the remaining handlers and honours the newer
status).  Result: bytes written at exit time, error-stream diagnostics, and
the final exit status. -/
def exitWithRestore (restoreOk : Bool) (requested : Nat) : List Nat × List String × Nat :=
  match disableRawModeHandler restoreOk with
  | none => ([], [], requested)
  | some d => d

/-- Claim C9 counterexample: a quit-path termination requests status 0, the
restore fails, and the process exits with status 1 — the restoration failure
does override the exit reason of the path that triggered termination. -/
theorem restore_override_cex :
    (exitWithRestore false 0).2.2 = 1 ∧ (exitWithRestore false 0).2.2 ≠ 0 := by
  decide

/-- Claim C9 (amended): when the exit-time restoration fails, the failure is
reported on the error stream and the process still terminates, but through
`die`, so the final status is 1, replacing the status requested by the
terminating path; when restoration succeeds the requested status is kept and
nothing is written. -/
theorem restore_failure_reported (requested : Nat) :
    exitWithRestore true requested = ([], [], requested) ∧
    exitWithRestore false requested =
      (eraseDisplaySeq ++ cursorHomeSeq, ["disableRawMode - tcsetattr"], 1) := by
  exact ⟨rfl, rfl⟩

end Socks
